import Mathlib

/-!
Verification of the agent-level RBAC core of the repository.

The definitions below are a shallow embedding of the Python class
`AgentAccessControl` (backend/rbac.py as given in the repository's RBAC
design document) and of `validate_token` (backend/auth.py as given in
docs/SETUP.md).  Python dictionaries with optional keys are modelled as
structures with `Option` fields or association lists; `dict.get(k, d)`
becomes an association-list lookup with a default.
-/

namespace Rbac

/-- One entry of `role_permissions`: `role_config.get("agent_patterns", [])`
and `role_config.get("allow_all", False)`. -/
structure RolePermission where
  agent_patterns : List String
  allow_all : Bool
deriving DecidableEq

/-- One entry of `agent_metadata.agents`:
`agent_metadata[agent_name].get("required_roles", [])`. -/
structure AgentMetaEntry where
  required_roles : List String
deriving DecidableEq

/-- The RBAC configuration document (`rbac_config.json` after JSON parsing).
`default_role` is `Option` because the code reads it with
`config.get("default_role", "BasicUser")`; `agents` is
`config.get("agent_metadata", {}).get("agents", {})`. -/
structure RbacConfig where
  role_permissions : List (String × RolePermission)
  default_role : Option String
  agents : List (String × AgentMetaEntry)
deriving DecidableEq

/-- Association-list lookup, modelling Python `dict[k]` / `k in dict`. -/
def dictGet {α : Type} (m : List (String × α)) (k : String) : Option α :=
  match m with
  | [] => none
  | (k', v) :: rest => if k' == k then some v else dictGet rest k

/-- `pat.isPrefixOf`-based substring test on character lists; models
Python's `pat in hay` for strings (empty pattern is contained in anything). -/
def containsSub (pat : List Char) : List Char → Bool
  | [] => pat.isEmpty
  | c :: rest => pat.isPrefixOf (c :: rest) || containsSub pat rest

/-- Python `pat in hay` (substring containment) on `String`. -/
def strContains (hay pat : String) : Bool :=
  containsSub pat.data hay.data

/-- Python `s.lower()`: character-wise lowercasing. -/
def strLower (s : String) : String :=
  ⟨s.data.map Char.toLower⟩

/-- `AgentAccessControl._get_default_config`: the fallback configuration
used when the config file is missing or fails to load. -/
def default_config : RbacConfig :=
  { role_permissions :=
      [ ("Admin", { agent_patterns := ["*"], allow_all := true })
      , ("BasicUser", { agent_patterns := ["general", "chat"], allow_all := false }) ]
  , default_role := some "BasicUser"
  , agents := [] }

/-- The outcome of opening and JSON-parsing the configuration file:
the file may be absent, fail to parse, or yield a document. -/
inductive LoadSource where
  | missing
  | parseError
  | ok (cfg : RbacConfig)
deriving DecidableEq

/-- `AgentAccessControl._load_config`: missing file or any exception during
open/parse falls back to `_get_default_config()`. -/
def load_config : LoadSource → RbacConfig
  | LoadSource.missing => default_config
  | LoadSource.parseError => default_config
  | LoadSource.ok cfg => cfg

/-- `AgentAccessControl.reload_config`: `self.config = self._load_config()`.
The previous document `current` is discarded unconditionally. -/
def reload_config (_current : RbacConfig) (src : LoadSource) : RbacConfig :=
  load_config src

/-- A decoded JWT payload, restricted to the `roles` claim
(`token_payload.get("roles", [])`; an absent claim is the empty list). -/
structure TokenPayload where
  roles : List String
deriving DecidableEq

/-- `AgentAccessControl.get_user_roles_from_token`: return the token's
`roles` claim, or `[default_role]` when the claim is absent or empty. -/
def get_user_roles_from_token (cfg : RbacConfig) (payload : TokenPayload) : List String :=
  let roles := payload.roles
  if roles.isEmpty then [cfg.default_role.getD "BasicUser"] else roles

/-- `AgentAccessControl.can_access_agent`.  For each role of the user, an
unknown role is skipped; a known role grants when `allow_all` is set or when
some pattern is `"*"` or a lowercased substring of the lowercased agent
name.  Only when no role granted is `agent_metadata` consulted, and it can
only grant (when some user role is among the entry's `required_roles`). -/
def can_access_agent (cfg : RbacConfig) (user_roles : List String) (agent_name : String) : Bool :=
  let agent_name_lower := strLower agent_name
  let role_permissions := cfg.role_permissions
  (user_roles.any fun role =>
    match dictGet role_permissions role with
    | none => false
    | some role_config =>
      role_config.allow_all ||
        role_config.agent_patterns.any fun pattern =>
          pattern == "*" || strContains agent_name_lower (strLower pattern))
  ||
  (match dictGet cfg.agents agent_name with
   | none => false
   | some meta => user_roles.any fun role => meta.required_roles.contains role)

/-- One catalog entry as handed to `filter_agents_by_access`: a dictionary
that may carry a `name` and/or an `id` key. -/
structure AgentDict where
  name : Option String
  id : Option String
deriving DecidableEq

/-- `agent.get("name", agent.get("id", "Unknown"))`. -/
def agentDisplayName (a : AgentDict) : String :=
  a.name.getD (a.id.getD "Unknown")

/-- `AgentAccessControl.filter_agents_by_access`: keep, in order, the
catalog entries whose display name passes `can_access_agent`. -/
def filter_agents_by_access (cfg : RbacConfig) (user_roles : List String) :
    List AgentDict → List AgentDict
  | [] => []
  | a :: rest =>
    if can_access_agent cfg user_roles (agentDisplayName a) then
      a :: filter_agents_by_access cfg user_roles rest
    else
      filter_agents_by_access cfg user_roles rest

/-- The `allow_all` flag effective for a role: false for unknown roles. -/
def allowAllOf (cfg : RbacConfig) (role : String) : Bool :=
  match dictGet cfg.role_permissions role with
  | none => false
  | some rc => rc.allow_all

/-- The pattern list effective for a role: empty for unknown roles. -/
def patternsOf (cfg : RbacConfig) (role : String) : List String :=
  match dictGet cfg.role_permissions role with
  | none => []
  | some rc => rc.agent_patterns

/-- The `required_roles` list effective for an agent name: empty when the
agent has no `agent_metadata` entry. -/
def requiredRolesFor (cfg : RbacConfig) (agent_name : String) : List String :=
  match dictGet cfg.agents agent_name with
  | none => []
  | some meta => meta.required_roles

/-- A per-role grant: what one iteration of the role loop of
`can_access_agent` computes for a known role (false for an unknown one). -/
def roleGrant (cfg : RbacConfig) (role : String) (agent_name : String) : Bool :=
  allowAllOf cfg role ||
    (patternsOf cfg role).any fun pattern =>
      pattern == "*" || strContains (strLower agent_name) (strLower pattern)

/-- The reasons `jwt.decode` (inside `validate_token`) can raise. -/
inductive TokenError where
  | expired
  | badSignature
  | audienceMismatch
  | issuerMismatch
  | malformed
deriving DecidableEq

/-- What `HTTPException(status_code=..., detail=...)` carries. -/
structure HttpError where
  status_code : Nat
  detail : String
deriving DecidableEq

/-- A decoded token payload as returned by `validate_token` on success. -/
structure JwtPayload where
  groups : List String
deriving DecidableEq

/-- `validate_token` (backend/auth.py, docs/SETUP.md): the try-block's
decode outcome is the input; any exception, whatever its kind, is caught
and re-raised as `HTTPException(401, "Invalid or expired token")`. -/
def validate_token : Except TokenError JwtPayload → Except HttpError JwtPayload
  | Except.ok payload => Except.ok payload
  | Except.error _ => Except.error { status_code := 401, detail := "Invalid or expired token" }

/-- The repository's example `rbac_config.json`, restricted to the roles and
the one `agent_metadata` entry relevant to the payroll scenario (the spec's
Scenario D): `FinanceAnalyst` has the six finance patterns including
`"payroll"`, and `"Payroll Bot"` carries an explicit override requiring
`Admin`. -/
def payrollCfg : RbacConfig :=
  { role_permissions :=
      [ ("Admin", { agent_patterns := ["*"], allow_all := true })
      , ("FinanceAnalyst",
          { agent_patterns :=
              ["budget", "invoice", "expense", "financial", "accounting", "payroll"]
          , allow_all := false }) ]
  , default_role := some "BasicUser"
  , agents := [("Payroll Bot", { required_roles := ["Admin"] })] }

/-- A document whose `BasicUser` role matches resources containing
`"finance"`; used to observe what a failed reload does to decisions. -/
def financeCfg : RbacConfig :=
  { role_permissions := [("BasicUser", { agent_patterns := ["finance"], allow_all := false })]
  , default_role := some "BasicUser"
  , agents := [] }

/-- A document with a single role whose only pattern is the literal `"*"`
and whose `allow_all` flag is off. -/
def starCfg : RbacConfig :=
  { role_permissions := [("R", { agent_patterns := ["*"], allow_all := false })]
  , default_role := none
  , agents := [] }

/-- The spec's Scenario A document: `FinanceAnalyst` with patterns
`["budget", "invoice"]` and no overrides. -/
def scenACfg : RbacConfig :=
  { role_permissions :=
      [("FinanceAnalyst", { agent_patterns := ["budget", "invoice"], allow_all := false })]
  , default_role := some "BasicUser"
  , agents := [] }

/-! ## Structural lemmas shared by the claim theorems -/

/-- One iteration of the role loop of `can_access_agent` equals
`roleGrant`. -/
lemma roleLoop_eq_roleGrant (cfg : RbacConfig) (name : String) (role : String) :
    (match dictGet cfg.role_permissions role with
     | none => false
     | some role_config =>
       role_config.allow_all ||
         role_config.agent_patterns.any fun pattern =>
           pattern == "*" || strContains (strLower name) (strLower pattern))
    = roleGrant cfg role name := by
  unfold roleGrant allowAllOf patternsOf
  cases dictGet cfg.role_permissions role <;> simp

/-- The metadata branch of `can_access_agent` expressed through
`requiredRolesFor`. -/
lemma metaBranch_eq (cfg : RbacConfig) (user_roles : List String) (name : String) :
    (match dictGet cfg.agents name with
     | none => false
     | some meta => user_roles.any fun role => meta.required_roles.contains role)
    = user_roles.any fun role => (requiredRolesFor cfg name).contains role := by
  unfold requiredRolesFor
  cases dictGet cfg.agents name <;> simp

/-- `can_access_agent` as a disjunction of the role loop and the metadata
fallback. -/
lemma can_access_agent_eq (cfg : RbacConfig) (user_roles : List String) (name : String) :
    can_access_agent cfg user_roles name =
      ((user_roles.any fun role => roleGrant cfg role name) ||
        user_roles.any fun role => (requiredRolesFor cfg name).contains role) := by
  unfold can_access_agent
  dsimp only
  rw [metaBranch_eq]
  have h : (fun role =>
      match dictGet cfg.role_permissions role with
      | none => false
      | some role_config =>
        role_config.allow_all ||
          role_config.agent_patterns.any fun pattern =>
            pattern == "*" || strContains (strLower name) (strLower pattern))
      = fun role => roleGrant cfg role name :=
    funext fun role => roleLoop_eq_roleGrant cfg name role
  rw [h]

/-! ## Claim theorems -/

/-- Claim C1: the spec demands that an explicit `agent_metadata` override
decide access alone ("overrides always win"), so `{FinanceAnalyst}` must be
denied `"Payroll Bot"` whose override requires `Admin`.  The code evaluated
at exactly this input: the override exists, its required roles are
`["Admin"]` (which `FinanceAnalyst`-only membership misses, witnessed by
the `all`-conjunct), yet `can_access_agent` returns `true`, because the
role loop consults the `"payroll"` pattern before the override is ever
reached and the override can only widen, never restrict, access. -/
theorem C1_override_not_enforced :
    dictGet payrollCfg.agents "Payroll Bot" = some { required_roles := ["Admin"] } ∧
    (["FinanceAnalyst"] : List String).all
        (fun r => !((requiredRolesFor payrollCfg "Payroll Bot").contains r)) = true ∧
    can_access_agent payrollCfg ["FinanceAnalyst"] "Payroll Bot" = true := by
  decide

/-- Claim C2, counterexample: under `financeCfg` the role set
`{BasicUser}` may access `"finance tool"`; after a reload whose source
fails to parse, the served document is the built-in default and the same
query is denied — the decisions before and after the failed reload are not
identical, so the last-known-good document is not kept. -/
theorem C2_failed_reload_changes_decisions :
    can_access_agent financeCfg ["BasicUser"] "finance tool" = true ∧
    can_access_agent (reload_config financeCfg LoadSource.parseError)
        ["BasicUser"] "finance tool" = false := by
  decide

/-- Claim C2, amended: a reload whose source is missing or fails to parse
replaces the current document with the built-in default configuration
(`_get_default_config`), so subsequent `can_access_agent` results are those
of the default document — not necessarily those before the attempt. -/
theorem C2_failed_reload_serves_default :
    ∀ (current : RbacConfig) (roles : List String) (name : String),
      reload_config current LoadSource.parseError = default_config ∧
      reload_config current LoadSource.missing = default_config ∧
      can_access_agent (reload_config current LoadSource.parseError) roles name
        = can_access_agent default_config roles name := by
  intro current roles name
  exact ⟨rfl, rfl, rfl⟩

/-- Claim C4: if some role of the user has `allow_all = true` in the
current document, `can_access_agent` grants every resource name (the
resource having no override entry, as the claim stipulates). -/
theorem C4_allow_all_grants_everything
    (cfg : RbacConfig) (user_roles : List String) (name : String)
    (role : String) (rc : RolePermission)
    (h1 : role ∈ user_roles)
    (h2 : dictGet cfg.role_permissions role = some rc)
    (h3 : rc.allow_all = true)
    (_h4 : dictGet cfg.agents name = none) :
    can_access_agent cfg user_roles name = true := by
  rw [can_access_agent_eq, Bool.or_eq_true]
  left
  rw [List.any_eq_true]
  refine ⟨role, h1, ?_⟩
  unfold roleGrant allowAllOf
  rw [h2]
  simp [h3]

/-- Witness for C4 at a concrete input: `Admin` carries `allow_all` in the
default configuration and is granted the empty resource name. -/
theorem C4_allow_all_grants_everything_witness :
    ("Admin" ∈ (["Admin"] : List String) ∧
      dictGet default_config.role_permissions "Admin"
        = some { agent_patterns := ["*"], allow_all := true } ∧
      ({ agent_patterns := ["*"], allow_all := true } : RolePermission).allow_all = true ∧
      dictGet default_config.agents "" = none) ∧
    can_access_agent default_config ["Admin"] "" = true :=
  ⟨by decide,
   C4_allow_all_grants_everything default_config ["Admin"] "" "Admin"
     { agent_patterns := ["*"], allow_all := true }
     (by decide) (by decide) (by decide) (by decide)⟩

/-- Claim C3, counterexample: `"Ghost"` is recognized by no entry of the
default document's `role_permissions`, yet a token carrying
`roles = ["Ghost"]` is not defaulted — `get_user_roles_from_token` returns
`["Ghost"]` as-is, and that principal is denied `"general chat"` while a
`defaultRole` (`BasicUser`) principal is granted it, so the two principals'
decisions differ. -/
theorem C3_unrecognized_roles_not_defaulted :
    dictGet default_config.role_permissions "Ghost" = none ∧
    default_config.default_role = some "BasicUser" ∧
    get_user_roles_from_token default_config { roles := ["Ghost"] } = ["Ghost"] ∧
    can_access_agent default_config ["Ghost"] "general chat" = false ∧
    can_access_agent default_config ["BasicUser"] "general chat" = true := by
  decide

/-- Claim C3, amended: the fallback to the default role happens only for an
absent or empty roles claim.  A non-empty claim is passed through
unchanged even when none of its roles is recognized, and such a principal
is denied every resource whose metadata entry (if any) does not name one of
those unrecognized roles — it does not receive the default role's
permission set. -/
theorem C3_default_only_for_empty_claim
    (cfg : RbacConfig) (payload : TokenPayload) (agent_name : String)
    (h1 : payload.roles ≠ [])
    (h2 : ∀ r ∈ payload.roles, dictGet cfg.role_permissions r = none)
    (h3 : ∀ r ∈ payload.roles, (requiredRolesFor cfg agent_name).contains r = false) :
    get_user_roles_from_token cfg payload = payload.roles ∧
    can_access_agent cfg payload.roles agent_name = false := by
  constructor
  · have h0 : payload.roles.isEmpty = false := List.isEmpty_eq_false.mpr h1
    unfold get_user_roles_from_token
    simp [h0]
  · rw [can_access_agent_eq, Bool.or_eq_false_iff]
    constructor
    · rw [List.any_eq_false]
      intro r hr
      unfold roleGrant allowAllOf patternsOf
      rw [h2 r hr]
      simp
    · rw [List.any_eq_false]
      intro r hr
      rw [h3 r hr]
      simp

/-- Witness for the amended C3 at a concrete input: the `["Ghost"]` claim
against the default document and resource `"general chat"`. -/
theorem C3_default_only_for_empty_claim_witness :
    ((["Ghost"] : List String) ≠ [] ∧
      (∀ r ∈ (["Ghost"] : List String), dictGet default_config.role_permissions r = none) ∧
      (∀ r ∈ (["Ghost"] : List String),
        (requiredRolesFor default_config "general chat").contains r = false)) ∧
    (get_user_roles_from_token default_config { roles := ["Ghost"] } = ["Ghost"] ∧
      can_access_agent default_config ["Ghost"] "general chat" = false) :=
  ⟨by decide,
   C3_default_only_for_empty_claim default_config { roles := ["Ghost"] } "general chat"
     (by decide) (by decide) (by decide)⟩

/-- Claim C5, counterexample: in `starCfg` the only role `R` has
`allow_all = false` and the single pattern `"*"`, and `"Foo"` has no
override entry; `can_access_agent` grants `"Foo"`, yet no configured
pattern of any held role is a case-insensitive substring of `"Foo"` — the
claimed "iff some pattern is a substring" fails at this input. -/
theorem C5_star_breaks_substring_iff :
    allowAllOf starCfg "R" = false ∧
    dictGet starCfg.agents "Foo" = none ∧
    can_access_agent starCfg ["R"] "Foo" = true ∧
    ((["R"] : List String).any fun role =>
        (patternsOf starCfg role).any fun pattern =>
          strContains (strLower "Foo") (strLower pattern)) = false := by
  decide

/-- Claim C5, amended: with every held role's `allow_all` off and no
override entry for the resource, `can_access_agent` grants iff some held
role has a configured pattern that is the literal `"*"` or a
case-insensitive substring of the resource name (OR semantics over roles
and patterns). -/
theorem C5_pattern_grant_characterization
    (cfg : RbacConfig) (user_roles : List String) (agent_name : String)
    (hall : ∀ role ∈ user_roles, allowAllOf cfg role = false)
    (hov : dictGet cfg.agents agent_name = none) :
    can_access_agent cfg user_roles agent_name = true ↔
      ∃ role ∈ user_roles, ∃ pattern ∈ patternsOf cfg role,
        pattern = "*" ∨ strContains (strLower agent_name) (strLower pattern) = true := by
  rw [can_access_agent_eq]
  have hmeta : (user_roles.any fun role =>
      (requiredRolesFor cfg agent_name).contains role) = false := by
    unfold requiredRolesFor
    rw [hov]
    simp
  rw [hmeta, Bool.or_false, List.any_eq_true]
  constructor
  · rintro ⟨role, hrole, hg⟩
    refine ⟨role, hrole, ?_⟩
    unfold roleGrant at hg
    rw [hall role hrole, Bool.false_or, List.any_eq_true] at hg
    obtain ⟨pattern, hp, hcase⟩ := hg
    rw [Bool.or_eq_true] at hcase
    refine ⟨pattern, hp, ?_⟩
    cases hcase with
    | inl h => exact Or.inl (by simpa using h)
    | inr h => exact Or.inr h
  · rintro ⟨role, hrole, pattern, hp, hcase⟩
    refine ⟨role, hrole, ?_⟩
    unfold roleGrant
    rw [hall role hrole, Bool.false_or, List.any_eq_true]
    refine ⟨pattern, hp, ?_⟩
    rw [Bool.or_eq_true]
    cases hcase with
    | inl h => exact Or.inl (by simp [h])
    | inr h => exact Or.inr h

/-- Witness for the amended C5 at the spec's Scenario A, together with the
scenario's filtering outcome: `{FinanceAnalyst}` with patterns
`["budget", "invoice"]` keeps exactly `"Budget Planner"` out of the
two-entry catalog. -/
theorem C5_pattern_grant_characterization_witness :
    ((∀ role ∈ (["FinanceAnalyst"] : List String), allowAllOf scenACfg role = false) ∧
      dictGet scenACfg.agents "Budget Planner" = none) ∧
    (can_access_agent scenACfg ["FinanceAnalyst"] "Budget Planner" = true ↔
      ∃ role ∈ (["FinanceAnalyst"] : List String), ∃ pattern ∈ patternsOf scenACfg role,
        pattern = "*" ∨
          strContains (strLower "Budget Planner") (strLower pattern) = true) ∧
    filter_agents_by_access scenACfg ["FinanceAnalyst"]
        [ { name := some "Budget Planner", id := none }
        , { name := some "Recruiting Bot", id := none } ]
      = [{ name := some "Budget Planner", id := none }] :=
  ⟨by decide,
   C5_pattern_grant_characterization scenACfg ["FinanceAnalyst"] "Budget Planner"
     (by decide) (by decide),
   by decide⟩

/-- Claim C6: `filter_agents_by_access` returns an order-preserving
subsequence of its input catalog, and applying it a second time to its own
output returns that output unchanged. -/
theorem C6_filter_sublist_idempotent :
    ∀ (cfg : RbacConfig) (user_roles : List String) (agents : List AgentDict),
      List.Sublist (filter_agents_by_access cfg user_roles agents) agents ∧
      filter_agents_by_access cfg user_roles
          (filter_agents_by_access cfg user_roles agents)
        = filter_agents_by_access cfg user_roles agents := by
  intro cfg user_roles agents
  induction agents with
  | nil => exact ⟨List.Sublist.slnil, rfl⟩
  | cons a rest ih =>
    by_cases h : can_access_agent cfg user_roles (agentDisplayName a) = true
    · have hstep : filter_agents_by_access cfg user_roles (a :: rest)
          = a :: filter_agents_by_access cfg user_roles rest := by
        simp only [filter_agents_by_access, h, if_true]
      rw [hstep]
      refine ⟨List.Sublist.cons₂ a ih.1, ?_⟩
      have hstep₂ : filter_agents_by_access cfg user_roles
            (a :: filter_agents_by_access cfg user_roles rest)
          = a :: filter_agents_by_access cfg user_roles
              (filter_agents_by_access cfg user_roles rest) := by
        simp only [filter_agents_by_access, h, if_true]
      rw [hstep₂, ih.2]
    · have hstep : filter_agents_by_access cfg user_roles (a :: rest)
          = filter_agents_by_access cfg user_roles rest := by
        simp [filter_agents_by_access, h]
      rw [hstep]
      exact ⟨List.Sublist.cons a ih.1, ih.2⟩

/-- Claim C7: every failure of `validate_token`, whatever its kind, is
surfaced as the same generic `HTTPException(401, "Invalid or expired
token")`; two tokens failing for different reasons are externally
indistinguishable. -/
theorem C7_token_failures_indistinguishable :
    ∀ (e₁ e₂ : TokenError),
      validate_token (Except.error e₁)
        = Except.error { status_code := 401, detail := "Invalid or expired token" } ∧
      validate_token (Except.error e₁) = validate_token (Except.error e₂) := by
  intro e₁ e₂
  exact ⟨rfl, rfl⟩

/-- Claim C8: `can_access_agent` is deterministic — two invocations on
identical document snapshots, role sets and resource names yield the
identical boolean. -/
theorem C8_can_access_deterministic
    (cfg₁ cfg₂ : RbacConfig) (roles₁ roles₂ : List String) (name₁ name₂ : String)
    (hc : cfg₁ = cfg₂) (hr : roles₁ = roles₂) (hn : name₁ = name₂) :
    can_access_agent cfg₁ roles₁ name₁ = can_access_agent cfg₂ roles₂ name₂ := by
  subst hc; subst hr; subst hn; rfl

/-- Witness for C8 at a concrete input. -/
theorem C8_can_access_deterministic_witness :
    can_access_agent default_config ["BasicUser"] "chat bot"
      = can_access_agent default_config ["BasicUser"] "chat bot" :=
  C8_can_access_deterministic default_config default_config
    ["BasicUser"] ["BasicUser"] "chat bot" "chat bot" rfl rfl rfl

/-- Claim C9: a role whose pattern list contains the literal `"*"` grants
every resource name even with `allow_all = false`: the wildcard arm
`pattern == "*"` fires before any substring test. -/
theorem C9_star_pattern_is_wildcard
    (cfg : RbacConfig) (user_roles : List String) (role : String) (rc : RolePermission)
    (h1 : role ∈ user_roles)
    (h2 : dictGet cfg.role_permissions role = some rc)
    (h3 : "*" ∈ rc.agent_patterns)
    (_h4 : rc.allow_all = false) :
    ∀ name : String, can_access_agent cfg user_roles name = true := by
  intro name
  rw [can_access_agent_eq, Bool.or_eq_true]
  left
  rw [List.any_eq_true]
  refine ⟨role, h1, ?_⟩
  unfold roleGrant patternsOf
  rw [h2, Bool.or_eq_true, List.any_eq_true]
  right
  exact ⟨"*", h3, by simp⟩

/-- Witness for C9 at a concrete input: role `R` of `starCfg` has
`allow_all = false` and pattern list `["*"]`, and is granted the empty
resource name (which contains no non-empty substring). -/
theorem C9_star_pattern_is_wildcard_witness :
    ("R" ∈ (["R"] : List String) ∧
      dictGet starCfg.role_permissions "R"
        = some { agent_patterns := ["*"], allow_all := false } ∧
      "*" ∈ ({ agent_patterns := ["*"], allow_all := false } : RolePermission).agent_patterns ∧
      ({ agent_patterns := ["*"], allow_all := false } : RolePermission).allow_all = false) ∧
    can_access_agent starCfg ["R"] "" = true :=
  ⟨by decide,
   C9_star_pattern_is_wildcard starCfg ["R"] "R"
     { agent_patterns := ["*"], allow_all := false }
     (by decide) (by decide) (by decide) (by decide) ""⟩

/-- Claim C10: a catalog entry without a `"name"` key is judged by its
`"id"` key, and by the literal `"Unknown"` when both are absent
(`agent.get("name", agent.get("id", "Unknown"))`); filtering such an entry
reduces to an ordinary `can_access_agent` decision and never fails. -/
theorem C10_missing_name_falls_back_to_id
    (cfg : RbacConfig) (user_roles : List String) (a : AgentDict) (rest : List AgentDict)
    (h : a.name = none) :
    filter_agents_by_access cfg user_roles (a :: rest) =
      if can_access_agent cfg user_roles (a.id.getD "Unknown") then
        a :: filter_agents_by_access cfg user_roles rest
      else
        filter_agents_by_access cfg user_roles rest := by
  simp only [filter_agents_by_access, agentDisplayName, h, Option.getD_none]

/-- Witness for C10 at a concrete input: an entry with no `"name"` and
`id = "chat helper"` is kept for `BasicUser` (pattern `"chat"`). -/
theorem C10_missing_name_falls_back_to_id_witness :
    (({ name := none, id := some "chat helper" } : AgentDict).name = none) ∧
    filter_agents_by_access default_config ["BasicUser"]
        [{ name := none, id := some "chat helper" }] =
      if can_access_agent default_config ["BasicUser"]
          (({ name := none, id := some "chat helper" } : AgentDict).id.getD "Unknown") then
        ({ name := none, id := some "chat helper" } : AgentDict) ::
          filter_agents_by_access default_config ["BasicUser"] []
      else
        filter_agents_by_access default_config ["BasicUser"] [] :=
  ⟨rfl,
   C10_missing_name_falls_back_to_id default_config ["BasicUser"]
     { name := none, id := some "chat helper" } [] rfl⟩

end Rbac
